import Mathlib

/-!
# Verification of the SSH terminal relay (src/server/src/index.ts)

Shallow embedding of the per-WebSocket-connection session relay implemented in
the backend entry point. Each WebSocket connection owns the mutable closure
state `sshClient`, `sshStream`, `connected`, `pendingResize`; inbound frames
and ssh2 callbacks are modelled as events, and the handler bodies are
translated into a pure `step` function from a `World` (the closure state plus
a handle allocator used to observe the lifetime of `Client`/stream objects)
to a successor world and a list of observable actions (messages sent on the
WebSocket, and calls made into the ssh2 capability).
-/

namespace SSHRelay

/-- The `status` field of an outbound status frame. -/
inductive StatusKind
  | connecting
  | connected
  | disconnected
  | error
deriving DecidableEq

/-- Outbound frames (`StatusMessage` union in the source): a status frame with
an optional `message`, or an `output` frame carrying terminal data. -/
inductive OutMsg
  | status (kind : StatusKind) (message : Option String)
  | output (data : String)
deriving DecidableEq

/-- Calls made into the ssh2 capability, recorded with the handle they act on.
`newClient` records `new Client()`; `connectCall` records `.connect(...)`;
`shell` records `sshClient?.shell(\x7bcols, rows, ...\x7d, cb)`; `setWindow`
records `stream.setWindow(rows, cols, height, width)`; `write` records
`sshStream.write(data)`; `endStream`/`endClient` record the `.end()` calls in
`cleanup`. -/
inductive Call
  | newClient (id : Nat)
  | connectCall (id : Nat) (host : String) (username : String) (password : String) (port : Nat)
  | shell (id : Nat) (cols : Nat) (rows : Nat)
  | setWindow (id : Nat) (rows : Nat) (cols : Nat) (height : Nat) (width : Nat)
  | write (id : Nat) (data : String)
  | endStream (id : Nat)
  | endClient (id : Nat)
deriving DecidableEq

/-- An observable action of one handler execution: either a frame sent to the
client over the WebSocket, or a call into the ssh2 capability. -/
inductive Action
  | send (m : OutMsg)
  | call (c : Call)
deriving DecidableEq

/-- Fields of a parsed `connect` message. In the source the credentials are
arbitrary JSON values checked for JS truthiness; a missing or empty string
field is falsy, so both are modelled as `""`. `port`, `cols`, `rows` take
destructuring defaults 22 / 80 / 24 when absent. -/
structure ConnectFields where
  host : String
  username : String
  password : String
  port : Option Nat
  cols : Option Nat
  rows : Option Nat
deriving DecidableEq

/-- A successfully parsed inbound message. `unknown` is any JSON value whose
`type` tag is none of the four recognized ones (it reaches the `switch`
statement and falls into `default: break`). -/
inductive InMsg
  | connect (f : ConnectFields)
  | input (data : String)
  | resize (cols : Nat) (rows : Nat)
  | disconnect
  | unknown
deriving DecidableEq

/-- An inbound WebSocket frame: either text that `JSON.parse` rejects
(`invalid`), or a parsed message. -/
inductive Frame
  | invalid
  | msg (m : InMsg)
deriving DecidableEq

/-- The events a session's handlers run on: inbound frames, the ssh2 `Client`
events (`ready`, `error`, `end`), the shell-open callback outcome, the shell
stream events (`data`, stderr `data`, `close`), and the WebSocket `close` and
`error` events. `sshReady` carries the `cols`/`rows` the firing client's
ready-handler closure captured from its connect message (after defaults).
`shellErr` carries `err.message` when the callback got an error, `none` when
it got no stream (the source then falls back to "Failed to open shell"). -/
inductive Event
  | wsMessage (f : Frame)
  | sshReady (cols : Nat) (rows : Nat)
  | shellOk
  | shellErr (msg : Option String)
  | sshError (msg : String)
  | sshEnd
  | streamData (data : String)
  | streamStderrData (data : String)
  | streamClose
  | wsClose
  | wsError
deriving DecidableEq

/-- The four mutable closure variables of one `wss.on('connection')` handler:
`sshClient`, `sshStream`, `connected`, `pendingResize` (stored as
(cols, rows)). Handles are identified by allocation number. -/
structure Session where
  sshClient : Option Nat
  sshStream : Option Nat
  connected : Bool
  pendingResize : Option (Nat × Nat)
deriving DecidableEq

/-- The session state together with the observation bookkeeping: whether the
WebSocket is still open (`ws.readyState === ws.OPEN`), a fresh-handle counter,
and the ssh2 `Client` and stream objects that have been created and not yet
`.end()`-ed — used to observe handle leaks, not read by the handlers. -/
structure World where
  sess : Session
  wsOpen : Bool
  nextId : Nat
  liveClients : List Nat
  liveStreams : List Nat
deriving DecidableEq

/-- `sendStatus` from the source: the frame is sent only while the WebSocket
is open. -/
def sendStatus (w : World) (m : OutMsg) : List Action :=
  if w.wsOpen then [Action.send m] else []

/-- `cleanup` from the source: end the stream if present, end the client if
present, clear `connected` and `pendingResize`. -/
def cleanup (w : World) : World × List Action :=
  let streamActs : List Action :=
    match w.sess.sshStream with
    | some id => [Action.call (Call.endStream id)]
    | none => []
  let liveStreams1 : List Nat :=
    match w.sess.sshStream with
    | some id => w.liveStreams.erase id
    | none => w.liveStreams
  let clientActs : List Action :=
    match w.sess.sshClient with
    | some id => [Action.call (Call.endClient id)]
    | none => []
  let liveClients1 : List Nat :=
    match w.sess.sshClient with
    | some id => w.liveClients.erase id
    | none => w.liveClients
  ({ w with
      sess := { sshClient := none, sshStream := none,
                connected := false, pendingResize := none },
      liveStreams := liveStreams1,
      liveClients := liveClients1 },
   streamActs ++ clientActs)

/-- The JS truthiness check `!host || !username || !password` on the connect
fields (an absent field and an empty string are both falsy). -/
def missingCreds (f : ConnectFields) : Bool :=
  f.host = "" || f.username = "" || f.password = ""

/-- The `parsed.type === 'connect'` branch: reject only when the `connected`
flag is set, validate credentials, then `sshClient = new Client()`, emit
`Status(connecting)`, attach handlers and call `.connect(...)`. Note the
guard reads the `connected` flag, not the presence of `sshClient`. -/
def handleConnect (w : World) (f : ConnectFields) : World × List Action :=
  if w.sess.connected then
    (w, sendStatus w (OutMsg.status StatusKind.error (some "Already connected")))
  else if missingCreds f then
    (w, sendStatus w (OutMsg.status StatusKind.error (some "Missing required credentials")))
  else
    let id := w.nextId
    let sshPort := f.port.getD 22
    let w1 := { w with
      sess := { w.sess with sshClient := some id },
      nextId := w.nextId + 1,
      liveClients := w.liveClients ++ [id] }
    (w1,
     Action.call (Call.newClient id) ::
       (sendStatus w1 (OutMsg.status StatusKind.connecting none) ++
        [Action.call (Call.connectCall id f.host f.username f.password sshPort)]))

/-- One tick of the event loop: the body of the handler that the event fires,
translated clause by clause from the source. -/
def step (w : World) (e : Event) : World × List Action :=
  match e with
  | Event.wsMessage Frame.invalid =>
      (w, sendStatus w (OutMsg.status StatusKind.error (some "Invalid message format")))
  | Event.wsMessage (Frame.msg (InMsg.connect f)) => handleConnect w f
  | Event.wsMessage (Frame.msg (InMsg.input d)) =>
      match w.sess.sshStream, w.sess.connected with
      | some s, true => (w, [Action.call (Call.write s d)])
      | _, _ =>
          (w, sendStatus w (OutMsg.status StatusKind.error (some "No active connection")))
  | Event.wsMessage (Frame.msg (InMsg.resize cols rows)) =>
      match w.sess.sshStream with
      | some s =>
          (w, [Action.call (Call.setWindow s rows cols (rows * 8) (cols * 8))])
      | none =>
          ({ w with sess := { w.sess with pendingResize := some (cols, rows) } }, [])
  | Event.wsMessage (Frame.msg InMsg.disconnect) =>
      let acts :=
        if w.sess.connected || w.sess.sshStream.isSome then
          sendStatus w (OutMsg.status StatusKind.disconnected (some "Disconnected by client"))
        else []
      let wc := cleanup w
      (wc.1, acts ++ wc.2)
  | Event.wsMessage (Frame.msg InMsg.unknown) => (w, [])
  | Event.sshReady cols rows =>
      let acts := sendStatus w (OutMsg.status StatusKind.connected none)
      let w1 := { w with sess := { w.sess with connected := true } }
      match w1.sess.sshClient with
      | some c => (w1, acts ++ [Action.call (Call.shell c cols rows)])
      | none => (w1, acts)
  | Event.shellOk =>
      let s := w.nextId
      let w1 := { w with
        sess := { w.sess with sshStream := some s },
        nextId := w.nextId + 1,
        liveStreams := w.liveStreams ++ [s] }
      match w1.sess.pendingResize with
      | some pr =>
          ({ w1 with sess := { w1.sess with pendingResize := none } },
           [Action.call (Call.setWindow s pr.2 pr.1 (pr.2 * 8) (pr.1 * 8))])
      | none => (w1, [])
  | Event.shellErr m =>
      let acts := sendStatus w (OutMsg.status StatusKind.error (some (m.getD "Failed to open shell")))
      let wc := cleanup w
      (wc.1, acts ++ wc.2)
  | Event.sshError m =>
      let acts := sendStatus w (OutMsg.status StatusKind.error (some m))
      let wc := cleanup w
      (wc.1, acts ++ wc.2)
  | Event.sshEnd =>
      let acts := sendStatus w (OutMsg.status StatusKind.disconnected (some "SSH session ended"))
      let wc := cleanup w
      (wc.1, acts ++ wc.2)
  | Event.streamData d => (w, sendStatus w (OutMsg.output d))
  | Event.streamStderrData d => (w, sendStatus w (OutMsg.output d))
  | Event.streamClose =>
      let acts := sendStatus w (OutMsg.status StatusKind.disconnected (some "Remote stream closed"))
      let wc := cleanup w
      (wc.1, acts ++ wc.2)
  | Event.wsClose => cleanup { w with wsOpen := false }
  | Event.wsError => cleanup { w with wsOpen := false }

/-- Process a list of events in order, concatenating the emitted actions. -/
def run (w : World) : List Event → World × List Action
  | [] => (w, [])
  | e :: es =>
      let we := step w e
      let wr := run we.1 es
      (wr.1, we.2 ++ wr.2)

/-- The closure state at `wss.on('connection')`: all four variables empty. -/
def initSession : Session :=
  { sshClient := none, sshStream := none, connected := false, pendingResize := none }

/-- A freshly accepted connection. -/
def initWorld : World :=
  { sess := initSession, wsOpen := true, nextId := 0, liveClients := [], liveStreams := [] }

/-- The messages among a list of actions. -/
def sendsOf (acts : List Action) : List OutMsg :=
  acts.filterMap (fun a =>
    match a with
    | Action.send m => some m
    | Action.call _ => none)

/-- The spec's Scenario A connect message. -/
def creds : ConnectFields :=
  { host := "10.0.0.5", username := "root", password := "x",
    port := some 22, cols := some 80, rows := some 24 }

/-- A representative `Active` session: client 0 connected, stream 1 open. -/
def activeWorld : World :=
  { sess := { sshClient := some 0, sshStream := some 1,
              connected := true, pendingResize := none },
    wsOpen := true, nextId := 2, liveClients := [0], liveStreams := [1] }

/-- The event carrying a parsed Scenario-A connect message. -/
def connectEv : Event := Event.wsMessage (Frame.msg (InMsg.connect creds))

/-- The world after one valid connect: `Connecting` (client 0 created, its
`.connect` outstanding, `connected` flag still false). -/
def wConnecting : World := (step initWorld connectEv).1

/-- The world after a valid connect followed by an explicit disconnect: the
session was torn down while the connect attempt was in flight. -/
def wTornDown : World :=
  (run initWorld [connectEv, Event.wsMessage (Frame.msg InMsg.disconnect)]).1

/-- The world after a resize arriving while no shell stream exists. -/
def wPending : World :=
  (step initWorld (Event.wsMessage (Frame.msg (InMsg.resize 120 40)))).1

/-- Connect, then resize while connecting, then a second connect, then the
ready event and a successful shell open. -/
def crossTrace : List Event :=
  [connectEv, Event.wsMessage (Frame.msg (InMsg.resize 120 40)), connectEv,
   Event.sshReady 80 24, Event.shellOk]

/-- C1: the claim says a Connect processed in state Connecting emits exactly
one Status(error, already connected), creates no new RemoteConnection and
leaves the session unchanged. The code guards the connect branch with the
`connected` flag only, which is still false while the first attempt is in
flight: the second Connect is accepted, emits Status(connecting), creates a
second Client and overwrites `sshClient` with it, and the first Client is
never `.end()`-ed. -/
theorem C1_second_connect_during_connecting_replaces_handle :
    wConnecting.sess.sshClient = some 0 ∧
    wConnecting.sess.connected = false ∧
    (step wConnecting connectEv).2 =
      [Action.call (Call.newClient 1),
       Action.send (OutMsg.status StatusKind.connecting none),
       Action.call (Call.connectCall 1 "10.0.0.5" "root" "x" 22)] ∧
    (step wConnecting connectEv).1.sess.sshClient = some 1 ∧
    (step wConnecting connectEv).1.liveClients = [0, 1] := by decide

/-- C2: the claim says no processing step ever leaves two live remote handles
owned by one session. After a second Connect during Connecting, two never
ended Client handles exist: the action trace contains the two allocations and
two `.connect` calls but no `.end()` call on either client. -/
theorem C2_two_live_remote_handles_after_double_connect :
    (run initWorld [connectEv, connectEv]).2 =
      [Action.call (Call.newClient 0),
       Action.send (OutMsg.status StatusKind.connecting none),
       Action.call (Call.connectCall 0 "10.0.0.5" "root" "x" 22),
       Action.call (Call.newClient 1),
       Action.send (OutMsg.status StatusKind.connecting none),
       Action.call (Call.connectCall 1 "10.0.0.5" "root" "x" 22)] ∧
    (run initWorld [connectEv, connectEv]).1.liveClients = [0, 1] := by decide

/-- C3 counterexample: the claim says Status(connected) is emitted only once
the shell stream exists and never when the shell open fails. In the code the
ready handler sends Status(connected) before calling `shell`: after
connect + ready the status has been sent while `sshStream` is still `none`,
and a run whose shell open fails has nevertheless emitted Status(connected)
between Status(connecting) and the error. -/
theorem C3_connected_status_precedes_shell_stream :
    (run initWorld [connectEv, Event.sshReady 80 24]).1.sess.sshStream = none ∧
    Action.send (OutMsg.status StatusKind.connected none) ∈
      (run initWorld [connectEv, Event.sshReady 80 24]).2 ∧
    sendsOf (run initWorld [connectEv, Event.sshReady 80 24, Event.shellErr none]).2 =
      [OutMsg.status StatusKind.connecting none,
       OutMsg.status StatusKind.connected none,
       OutMsg.status StatusKind.error (some "Failed to open shell")] := by decide

/-- C3 amended: Status(connected) is emitted at the moment the connect
outcome `ready` arrives, before any shell stream exists: the ready step sets
the `connected` flag, leaves `sshStream` unchanged, and its action list is
the Status(connected) send followed by the shell-open call on the current
client when one is present (and nothing else). -/
theorem C3_amended_connected_emitted_at_ready (w : World) (cols rows : Nat)
    (h : w.wsOpen = true) :
    (step w (Event.sshReady cols rows)).1.sess.connected = true ∧
    (step w (Event.sshReady cols rows)).1.sess.sshStream = w.sess.sshStream ∧
    ((w.sess.sshClient = none ∧
        (step w (Event.sshReady cols rows)).2 =
          [Action.send (OutMsg.status StatusKind.connected none)]) ∨
     (∃ c, w.sess.sshClient = some c ∧
        (step w (Event.sshReady cols rows)).2 =
          [Action.send (OutMsg.status StatusKind.connected none),
           Action.call (Call.shell c cols rows)])) := by
  cases hc : w.sess.sshClient <;> simp [step, sendStatus, h, hc]

/-- C3 amended, witness at the Connecting world. -/
theorem C3_amended_connected_emitted_at_ready_witness :
    wConnecting.wsOpen = true ∧
    (step wConnecting (Event.sshReady 80 24)).1.sess.connected = true :=
  ⟨by decide, (C3_amended_connected_emitted_at_ready wConnecting 80 24 (by decide)).1⟩

/-- C4: a Resize with no shell stream stores the pair as the single pending
resize, overwriting any earlier pair and making no capability call; a Resize
with a stream applies `setWindow` immediately and changes no state; a
successful shell open applies the current pending pair exactly once
(one `setWindow` on the new stream) and clears it; with no pending pair the
shell open makes no `setWindow` call. -/
theorem C4_pending_resize_semantics (w : World) (cols rows : Nat) :
    (w.sess.sshStream = none →
       step w (Event.wsMessage (Frame.msg (InMsg.resize cols rows))) =
         ({ w with sess := { w.sess with pendingResize := some (cols, rows) } }, [])) ∧
    (∀ s, w.sess.sshStream = some s →
       step w (Event.wsMessage (Frame.msg (InMsg.resize cols rows))) =
         (w, [Action.call (Call.setWindow s rows cols (rows * 8) (cols * 8))])) ∧
    (∀ pc pr, w.sess.pendingResize = some (pc, pr) →
       (step w Event.shellOk).2 =
         [Action.call (Call.setWindow w.nextId pr pc (pr * 8) (pc * 8))] ∧
       (step w Event.shellOk).1.sess.pendingResize = none) ∧
    (w.sess.pendingResize = none →
       (step w Event.shellOk).2 = [] ∧
       (step w Event.shellOk).1.sess.pendingResize = none) := by
  refine ⟨fun h => ?_, fun s h => ?_, fun pc pr h => ?_, fun h => ?_⟩ <;>
    simp [step, h]

/-- C4, witness: storing at the initial world, immediate application at an
active world, and exactly-once application of the stored pair at shell open. -/
theorem C4_pending_resize_semantics_witness :
    initWorld.sess.sshStream = none ∧
    step initWorld (Event.wsMessage (Frame.msg (InMsg.resize 120 40))) =
      ({ initWorld with
          sess := { initWorld.sess with pendingResize := some (120, 40) } }, []) ∧
    step activeWorld (Event.wsMessage (Frame.msg (InMsg.resize 120 40))) =
      (activeWorld, [Action.call (Call.setWindow 1 40 120 320 960)]) ∧
    (step wPending Event.shellOk).2 =
      [Action.call (Call.setWindow 0 40 120 320 960)] ∧
    (step wPending Event.shellOk).1.sess.pendingResize = none :=
  ⟨by decide,
   (C4_pending_resize_semantics initWorld 120 40).1 (by decide),
   by simpa using (C4_pending_resize_semantics activeWorld 120 40).2.1 1 (by decide),
   by simpa using ((C4_pending_resize_semantics wPending 120 40).2.2.1 120 40 (by decide)).1,
   ((C4_pending_resize_semantics wPending 120 40).2.2.1 120 40 (by decide)).2⟩

/-- C5 counterexample: the claim says a Disconnect while a RemoteConnection
exists (including while still Connecting) emits exactly one
Status(disconnected, disconnected by client). The code guards the status
with `connected || sshStream`; during Connecting both are unset although
`sshClient` exists, so the disconnect is silent: its only action is the
`.end()` on the client. -/
theorem C5_disconnect_during_connecting_is_silent :
    wConnecting.sess.sshClient = some 0 ∧
    wConnecting.sess.connected = false ∧
    wConnecting.sess.sshStream = none ∧
    (step wConnecting (Event.wsMessage (Frame.msg InMsg.disconnect))).2 =
      [Action.call (Call.endClient 0)] := by decide

/-- C5 amended: a Disconnect emits exactly one
Status(disconnected, Disconnected by client) when the `connected` flag is set
or a shell stream exists, and no message otherwise (in particular it is
silent during Connecting, before the ready event); in all cases cleanup
resets the session state. -/
theorem C5_amended_disconnect_gated_by_flag_or_stream (w : World)
    (h : w.wsOpen = true) :
    sendsOf (step w (Event.wsMessage (Frame.msg InMsg.disconnect))).2 =
      (if w.sess.connected || w.sess.sshStream.isSome then
         [OutMsg.status StatusKind.disconnected (some "Disconnected by client")]
       else []) ∧
    (step w (Event.wsMessage (Frame.msg InMsg.disconnect))).1.sess = initSession := by
  cases hs : w.sess.sshStream <;> cases hcl : w.sess.sshClient <;>
    cases hcn : w.sess.connected <;>
      simp [step, cleanup, sendsOf, sendStatus, initSession, h, hs, hcl, hcn]

/-- C5 amended, witness at an Active world. -/
theorem C5_amended_disconnect_gated_by_flag_or_stream_witness :
    activeWorld.wsOpen = true ∧
    sendsOf (step activeWorld (Event.wsMessage (Frame.msg InMsg.disconnect))).2 =
      [OutMsg.status StatusKind.disconnected (some "Disconnected by client")] :=
  ⟨rfl, by
    simpa using
      (C5_amended_disconnect_gated_by_flag_or_stream activeWorld rfl).1⟩

/-- C6: the claim (and the spec, which calls its absence a latent defect)
requires a stale connect completion after teardown to emit no
Status(connected) and leave the state as cleanup set it. In the code the
ready handler runs unguarded: after connect + disconnect has reset the
session, the stale ready still sends Status(connected) and sets the
`connected` flag back to true (no shell is opened, since `sshClient?.shell`
is a no-op on null). -/
theorem C6_stale_ready_resurrects_connected_flag :
    wTornDown.sess = initSession ∧
    wTornDown.wsOpen = true ∧
    (step wTornDown (Event.sshReady 80 24)).2 =
      [Action.send (OutMsg.status StatusKind.connected none)] ∧
    (step wTornDown (Event.sshReady 80 24)).1.sess.connected = true := by decide

/-- C7: an Input while not Active (the `connected` flag unset or no shell
stream) writes nothing to the capability, emits exactly one
Status(error, No active connection) and leaves the state unchanged; while
Active the data is written verbatim to the shell stream and nothing else
happens. -/
theorem C7_input_gating (w : World) (d : String) (h : w.wsOpen = true) :
    (¬ (w.sess.connected = true ∧ w.sess.sshStream.isSome = true) →
       step w (Event.wsMessage (Frame.msg (InMsg.input d))) =
         (w, [Action.send (OutMsg.status StatusKind.error (some "No active connection"))])) ∧
    (∀ s, w.sess.connected = true → w.sess.sshStream = some s →
       step w (Event.wsMessage (Frame.msg (InMsg.input d))) =
         (w, [Action.call (Call.write s d)])) := by
  constructor
  · intro hna
    cases hs : w.sess.sshStream <;> cases hcn : w.sess.connected <;>
      simp_all [step, sendStatus]
  · intro s hcn hs
    simp [step, hs, hcn]

/-- C7, witness: rejected at the initial world, written at an active world. -/
theorem C7_input_gating_witness :
    step initWorld (Event.wsMessage (Frame.msg (InMsg.input "ls\n"))) =
      (initWorld,
       [Action.send (OutMsg.status StatusKind.error (some "No active connection"))]) ∧
    step activeWorld (Event.wsMessage (Frame.msg (InMsg.input "ls\n"))) =
      (activeWorld, [Action.call (Call.write 1 "ls\n")]) :=
  ⟨(C7_input_gating initWorld "ls\n" rfl).1 (by decide),
   (C7_input_gating activeWorld "ls\n" rfl).2 1 rfl rfl⟩

/-- C8: while the session is Active, a sequence of data chunks from the
remote shell stream is relayed as one Output message per chunk, with the
same content, in the same order, changing no session state. -/
theorem C8_output_relay_identity (w : World) (chunks : List String)
    (h : w.wsOpen = true) (_hcn : w.sess.connected = true)
    (_hs : w.sess.sshStream.isSome = true) :
    run w (chunks.map Event.streamData) =
      (w, chunks.map (fun d => Action.send (OutMsg.output d))) := by
  induction chunks with
  | nil => simp [run]
  | cons d ds ih => simp [run, step, sendStatus, h, ih]

/-- C8, witness: Scenario C chunk followed by a second chunk, relayed
verbatim in order. -/
theorem C8_output_relay_identity_witness :
    activeWorld.sess.connected = true ∧
    run activeWorld [Event.streamData "prompt$ ", Event.streamData "ok"] =
      (activeWorld,
       [Action.send (OutMsg.output "prompt$ "), Action.send (OutMsg.output "ok")]) :=
  ⟨rfl, by
    simpa using C8_output_relay_identity activeWorld ["prompt$ ", "ok"] rfl rfl rfl⟩

/-- C9 counterexample: the claim says a JSON object with an unknown type tag
yields exactly one Status(error, invalid message format). In the code such a
frame parses successfully, reaches the `switch` and falls into
`default: break`: no message is emitted at all (and no state changes). -/
theorem C9_unknown_tag_silently_ignored :
    step initWorld (Event.wsMessage (Frame.msg InMsg.unknown)) = (initWorld, []) ∧
    sendsOf (step initWorld (Event.wsMessage (Frame.msg InMsg.unknown))).2 = [] := by decide

/-- C9 amended: a frame that is not valid JSON emits exactly one
Status(error, Invalid message format) and changes nothing; a JSON frame with
an unrecognized type tag is silently ignored (no message, no state change). -/
theorem C9_amended_malformed_frame_handling (w : World) (h : w.wsOpen = true) :
    step w (Event.wsMessage Frame.invalid) =
      (w, [Action.send (OutMsg.status StatusKind.error (some "Invalid message format"))]) ∧
    step w (Event.wsMessage (Frame.msg InMsg.unknown)) = (w, []) := by
  simp [step, sendStatus, h]

/-- C9 amended, witness at the initial world. -/
theorem C9_amended_malformed_frame_handling_witness :
    step initWorld (Event.wsMessage Frame.invalid) =
      (initWorld,
       [Action.send (OutMsg.status StatusKind.error (some "Invalid message format"))]) ∧
    step initWorld (Event.wsMessage (Frame.msg InMsg.unknown)) = (initWorld, []) :=
  C9_amended_malformed_frame_handling initWorld rfl

/-- C10 counterexample: the claim concludes that a Resize stored during one
connection attempt is never applied to the shell stream of a later connect.
The second-connect path does not run cleanup: a resize stored while client 0
was connecting survives the accepted second connect (client 1), and when
client 1's shell stream (stream 2) opens, the stale 120x40 pair is applied
to it. The full action trace shows no `.end()` call and the final state shows
the stream belongs to the second attempt. -/
theorem C10_pending_resize_crosses_connect_attempts :
    (run initWorld crossTrace).2 =
      [Action.call (Call.newClient 0),
       Action.send (OutMsg.status StatusKind.connecting none),
       Action.call (Call.connectCall 0 "10.0.0.5" "root" "x" 22),
       Action.call (Call.newClient 1),
       Action.send (OutMsg.status StatusKind.connecting none),
       Action.call (Call.connectCall 1 "10.0.0.5" "root" "x" 22),
       Action.send (OutMsg.status StatusKind.connected none),
       Action.call (Call.shell 1 80 24),
       Action.call (Call.setWindow 2 40 120 320 960)] ∧
    (run initWorld crossTrace).1.sess.sshClient = some 1 ∧
    (run initWorld crossTrace).1.sess.sshStream = some 2 ∧
    (run initWorld crossTrace).1.sess.pendingResize = none := by decide

/-- C10 amended: every teardown path — explicit Disconnect, WebSocket close,
WebSocket error, ssh error, ssh session end, remote stream close, and a
failed shell open — runs cleanup, which resets the whole session state
including the pending resize; the cross-attempt conclusion fails only on the
second-connect path, which is not a teardown. -/
theorem C10_amended_every_teardown_clears_pending (w : World)
    (em : String) (mo : Option String) :
    (step w (Event.wsMessage (Frame.msg InMsg.disconnect))).1.sess = initSession ∧
    (step w Event.wsClose).1.sess = initSession ∧
    (step w Event.wsError).1.sess = initSession ∧
    (step w (Event.sshError em)).1.sess = initSession ∧
    (step w Event.sshEnd).1.sess = initSession ∧
    (step w Event.streamClose).1.sess = initSession ∧
    (step w (Event.shellErr mo)).1.sess = initSession := by
  simp [step, cleanup, initSession]

end SSHRelay
